import Mathlib

/-!
A shallow embedding, in Lean 4, of the data model and operations of the
"Oil Analyzer" bot (`src/app.py`): the in-memory TTL cache, the five data
fetchers (prices, EIA, Baker Hughes, CFTC, FRED), the summary formatter
and the `run_once` collector, together with theorems settling the frozen
claims about them.

Modelling conventions:
- Wall-clock instants and durations are natural numbers of seconds
  (`datetime.now(timezone.utc)` becomes an explicit `now : Nat` argument;
  the code never does sub-second arithmetic on cache timestamps).
- Network I/O and other external-library calls (requests/yfinance/
  BeautifulSoup/OpenAI/Telegram) are oracles packaged in an `Env` record:
  each call's outcome (a raised exception, or the parsed/extracted value
  the library hands back) is an `Except`/plain field of `Env`.
- A Python exception is `Except.error msg`.  A function that may let an
  exception escape to its caller has an `Except String` result type; a
  `try/except` block is `pyTry`.  Numeric JSON values are `Rat`.
- Digit-level rendering of floats (`f"{v:,.2f}"`, `str(float)`) is
  reproduced structurally (sign / thousands grouping / fixed decimals,
  ties-to-even as in Python's `round` and format specs); no claim in
  scope depends on the decimal digits of any rendered float.
-/

namespace Oil

/-! ## Small Python-semantics helpers -/

/-- Outcome of a `try: body except Exception as e: handler(e)` block whose
result is a value (translation of the source's blanket exception handlers). -/
def pyTry {α : Type} (body : Except String α) (handler : String → α) : α :=
  match body with
  | .ok a => a
  | .error e => handler e

/-- Inner `try: ... except Exception: continue` in a loop: a failed body
contributes nothing. -/
def pyTryOpt {α : Type} (body : Except String α) : Option α :=
  match body with
  | .ok a => some a
  | .error _ => none

/-- A dynamically-typed scalar reaching `float(...)` / the formatters:
`None`, a JSON number, or a string. -/
inductive PyV : Type
  | none : PyV
  | num (q : Rat) : PyV
  | str (s : String) : PyV
deriving DecidableEq, Repr

/-- Python `float(x)` on the values that occur in this program: numbers
convert, `None` raises `TypeError`, and the only strings that reach it
("N/A", regex-free defaults) raise `ValueError`.  (No string-encoded
number is ever stored in the embedded data model, so string conversion
is uniformly a failure.) -/
def pyFloat? : PyV → Option Rat
  | .num q => some q
  | .none => none
  | .str _ => none

/-- `float(x)` as an exception-raising operation (message text mirrors
CPython's). -/
def pyFloatE : PyV → Except String Rat
  | .num q => .ok q
  | .none => .error "TypeError: float() argument must be a string or a real number, not NoneType"
  | .str s => .error ("ValueError: could not convert string to float: " ++ s)

/-! ## String helpers (Python `str` operations used by the fetchers) -/

/-- Character-index of the first occurrence of `needle` in `hay`
(Python `str.find`, restricted to found/not-found). -/
def strFindAux (needle : List Char) : List Char → Nat → Option Nat
  | [], i => if needle = [] then some i else Option.none
  | c :: cs, i =>
    if needle.isPrefixOf (c :: cs) then some i else strFindAux needle cs (i + 1)

def strFindIdx? (hay needle : String) : Option Nat :=
  strFindAux needle.toList hay.toList 0

/-- Python `needle in hay`. -/
def strContains (hay needle : String) : Bool :=
  (strFindIdx? hay needle).isSome

/-- Python `hay.find(needle)` under a containment guard (callers only use
it after an `in` check). -/
def strIdxOf (hay needle : String) : Nat :=
  (strFindIdx? hay needle).getD 0

/-- Python slice `s[a:b]` by character position (`a ≤ b`; out-of-range
indices clamp, as in Python). -/
def strSlice (s : String) (a b : Nat) : String :=
  String.mk ((s.toList.drop a).take (b - a))

/-- Python `s[:n]`. -/
def strTake (s : String) (n : Nat) : String :=
  String.mk (s.toList.take n)

/-- Python whitespace class `\s` (ASCII portion; the scraped pages are
ASCII-spaced). -/
def isPyWs (c : Char) : Bool :=
  c = ' ' ∨ c = '\t' ∨ c = '\n' ∨ c = '\r' ∨ c = '\x0b' ∨ c = '\x0c'

/-- `re.sub(r"\s+", " ", txt)`: collapse every whitespace run to one space. -/
def collapseWSAux : List Char → Bool → List Char
  | [], _ => []
  | c :: cs, inRun =>
    if isPyWs c then
      if inRun then collapseWSAux cs true else ' ' :: collapseWSAux cs true
    else c :: collapseWSAux cs false

def collapseWS (s : String) : String :=
  String.mk (collapseWSAux s.toList false)

/-- Python `s.strip()` (strip leading and trailing whitespace). -/
def pyStrip (s : String) : String :=
  String.mk (((s.toList.dropWhile isPyWs).reverse.dropWhile isPyWs).reverse)

/-- Python `s.replace(c, "")` for a one-character pattern: remove every
occurrence of the character. -/
def strRemoveChar (s : String) (c : Char) : String :=
  String.mk (s.toList.filter (fun a => a ≠ c))

/-- Python `sep.join(parts)`. -/
def joinSep (sep : String) : List String → String
  | [] => ""
  | [s] => s
  | s :: s' :: rest => s ++ sep ++ joinSep sep (s' :: rest)

/-! ## Decimal rendering helpers (`_num` / `_pct` / `:.1f` format specs) -/

/-- Round a rational to the nearest integer, ties to even (CPython's
`round` and `format` rounding mode). -/
def halfEven (x : Rat) : Int :=
  let f : Int := ⌊x⌋
  let r : Rat := x - (f : Rat)
  if r < 1/2 then f
  else if 1/2 < r then f + 1
  else if f % 2 = 0 then f else f + 1

/-- Thousands grouping of a digit string (`{:,}`): walk the reversed
digits, inserting a comma after every third digit that is not the last. -/
def groupRevAux : List Char → Nat → List Char
  | [], _ => []
  | [c], _ => [c]
  | c :: c' :: cs, i =>
    c :: (if (i + 1) % 3 = 0 then [','] else []) ++ groupRevAux (c' :: cs) (i + 1)

def digitGroup (s : String) : String :=
  String.mk (groupRevAux s.toList.reverse 0).reverse

def pad2 (n : Nat) : String :=
  if n < 10 then "0" ++ toString n else toString n

/-- `f"{v:,.2f}"`: sign, comma-grouped integer part, two decimals. -/
def numFmt2 (q : Rat) : String :=
  let c : Int := halfEven (q * 100)
  let sign := if c < 0 then "-" else ""
  let n := c.natAbs
  sign ++ digitGroup (toString (n / 100)) ++ "." ++ pad2 (n % 100)

/-- `f"{v:+.2f}"`: explicit sign, two decimals, no grouping. -/
def signedFmt2 (q : Rat) : String :=
  let c : Int := halfEven (q * 100)
  let sign := if q < 0 then "-" else "+"
  let n := c.natAbs
  sign ++ toString (n / 100) ++ "." ++ pad2 (n % 100)

/-- `f"{v:.1f}"`: one decimal place. -/
def fmt1 (q : Rat) : String :=
  let t : Int := halfEven (q * 10)
  let sign := if t < 0 then "-" else ""
  sign ++ toString (t.natAbs / 10) ++ "." ++ toString (t.natAbs % 10)

/-- `str(v)` on a float in an f-string (only feeds the EIA report text;
its decimal spelling decides no claim). -/
def ratStr (q : Rat) : String := toString q

/-- Python `round(x, 2)` (banker's rounding to cents). -/
def pyRound2 (q : Rat) : Rat := (halfEven (q * 100) : Rat) / 100

/-! ## Clock (`utc_now`, src/app.py lines 42-43) -/

/-- Gregorian civil date from a count of days since 1970-01-01
(the standard era-based conversion). -/
def civilFromDays (z0 : Nat) : Nat × Nat × Nat :=
  let z := z0 + 719468
  let era := z / 146097
  let doe := z % 146097
  let yoe := (doe - doe / 1460 + doe / 36524 - doe / 146097) / 365
  let y := yoe + era * 400
  let doy := doe - (365 * yoe + yoe / 4 - yoe / 100)
  let mp := (5 * doy + 2) / 153
  let d := doy - (153 * mp + 2) / 5 + 1
  let m := if mp < 10 then mp + 3 else mp - 9
  (if m ≤ 2 then y + 1 else y, m, d)

/-- `utc_now()`: `datetime.now(timezone.utc).strftime("%Y-%m-%d %H:%M:%S UTC")`,
with the implicit clock read made an explicit argument (seconds since epoch). -/
def utc_now (now : Nat) : String :=
  let days := now / 86400
  let s := now % 86400
  let ymd := civilFromDays days
  toString ymd.1 ++ "-" ++ pad2 ymd.2.1 ++ "-" ++ pad2 ymd.2.2 ++ " " ++
    pad2 (s / 3600) ++ ":" ++ pad2 (s / 60 % 60) ++ ":" ++ pad2 (s % 60) ++ " UTC"

/-! ## TTL cache (src/app.py lines 36-37, 52-61)

`CACHE` is a Python dict from string keys to rows
`{"ts": datetime, "ttl": seconds, "data": value}`.  The generic, keyed
translation below serves the cache claims; the fetchers, each of which
reads and writes exactly one fixed key, use the per-slot specialisations
`cacheGet`/`cacheSet` (proved equal to the keyed operations at the key). -/

structure CacheEntry (α : Type) : Type where
  ts : Nat
  ttl : Nat
  data : α
deriving DecidableEq, Repr

/-- The `CACHE` dict: an association list with at most one row per key
(dict assignment overwrites). -/
def CacheMap (α : Type) : Type := List (String × CacheEntry α)

/-- `CACHE.get(key)`. -/
def cacheRow (c : CacheMap α) (key : String) : Option (CacheEntry α) :=
  (c.find? (fun kv => kv.1 = key)).map (fun kv => kv.2)

/-- `get_cache(key)`: absent rows and rows past `ts + ttl` read as `None`;
a valid row yields its data.  (`if not row` is the `None` test: a stored
row is a non-empty dict, hence truthy.) -/
def get_cache (c : CacheMap α) (now : Nat) (key : String) : Option α :=
  match cacheRow c key with
  | Option.none => Option.none
  | some row => if row.ts + row.ttl < now then Option.none else some row.data

/-- `set_cache(key, data, ttl_sec)`: unconditional overwrite with a fresh
timestamp. -/
def set_cache (c : CacheMap α) (now : Nat) (key : String) (data : α) (ttl_sec : Nat) :
    CacheMap α :=
  (key, ⟨now, ttl_sec, data⟩) :: (c : List (String × CacheEntry α)).filter (fun kv => kv.1 ≠ key)

/-- Per-slot `get_cache` (the source function specialised to one key's row). -/
def cacheGet (slot : Option (CacheEntry α)) (now : Nat) : Option α :=
  match slot with
  | Option.none => Option.none
  | some row => if row.ts + row.ttl < now then Option.none else some row.data

/-- Per-slot `set_cache` (the fresh row the source stores). -/
def cacheSet (data : α) (ttl_sec : Nat) (now : Nat) : CacheEntry α :=
  ⟨now, ttl_sec, data⟩

/-- The slot operations agree with the keyed source functions. -/
theorem get_cache_eq_cacheGet (c : CacheMap α) (now : Nat) (key : String) :
    get_cache c now key = cacheGet (cacheRow c key) now := by
  unfold get_cache cacheGet
  cases cacheRow c key <;> rfl

theorem set_cache_row_eq_cacheSet (c : CacheMap α) (now : Nat) (key : String)
    (data : α) (ttl : Nat) :
    cacheRow (set_cache c now key data ttl) key = some (cacheSet data ttl now) := by
  unfold set_cache cacheRow cacheSet
  simp [List.find?]

/-! ## Source results (the dicts each fetcher returns) -/

/-- `get_eia_weekly` result: `{"error": msg}` or
`{"period":…, "raw":…, "report":…}` (src lines 96-183).  A `raw` triple
is `(value, units, series-description)`. -/
structure EiaRaw : Type where
  stocks : Option (Option Rat × String × String)
  imports : Option (Option Rat × String × String)
  production : Option (Option Rat × String × String)
deriving DecidableEq, Repr

inductive EiaResult : Type
  | err (msg : String)
  | ok (period : String) (raw : EiaRaw) (report : String)
deriving DecidableEq, Repr

/-- `get_baker_hughes` result dict (src lines 189-266). -/
inductive BakerResult : Type
  | ok (snippet : String) (source : String) (as_of : Option String)
      (us : Option Nat) (us_delta : Option Int)
      (canada : Option Nat) (canada_delta : Option Int)
      (intl : Option Nat) (intl_delta : Option Int)
      (sentiment : String)
  | err (msg : String)
deriving DecidableEq, Repr

/-- `get_cftc` result dict (src lines 295-321). -/
inductive CftcResult : Type
  | ok (snippet : String) (source : String)
  | err (msg : String)
deriving DecidableEq, Repr

/-- `get_fred` result dict (src lines 324-339). -/
inductive FredResult : Type
  | ok (CPI : Rat) (CPI_date : String) (FedRate : Rat) (Rate_date : String)
  | err (msg : String)
deriving DecidableEq, Repr

/-- `get_prices` result dict (src line 372): note there is no error key
in its shape at all. -/
structure PricesOut : Type where
  WTI : Option Rat
  WTI_change : Option Rat
  DXY : Option Rat
  DXY_change : Option Rat
  source : String
deriving DecidableEq, Repr

/-- The spec's `Err` tag: a result dict carrying an `"error"` key. -/
def EiaResult.is_err : EiaResult → Bool
  | .err _ => true
  | .ok _ _ _ => false

def BakerResult.is_err : BakerResult → Bool
  | .err _ => true
  | _ => false

def CftcResult.is_err : CftcResult → Bool
  | .err _ => true
  | _ => false

def FredResult.is_err : FredResult → Bool
  | .err _ => true
  | _ => false

/-- `cftc.get("snippet", "")` (src line 773 and the webhook). -/
def CftcResult.snippetD : CftcResult → String
  | .ok s _ => s
  | .err _ => ""

/-! ## Process state: the slots of `CACHE` the fetchers use -/

/-- The portion of `CACHE` touched by the five fetchers: one slot per
fixed key ("eia", "baker", "cftc", "fred", "prices"), each holding the
row type that key's single writer stores. -/
structure St : Type where
  eia : Option (CacheEntry EiaResult)
  baker : Option (CacheEntry BakerResult)
  cftc : Option (CacheEntry CftcResult)
  fred : Option (CacheEntry FredResult)
  prices : Option (CacheEntry PricesOut)
deriving DecidableEq, Repr

def emptySt : St := ⟨Option.none, Option.none, Option.none, Option.none, Option.none⟩

/-! ## External world -/

/-- One EIA API record, as consumed by `get_eia_weekly`
(`r.get("series-description","")`, `r.get("value")`, `r.get("units","")`,
`r.get("period","N/A")`). -/
structure EiaRecord : Type where
  series_description : Option String
  value : Option Rat
  units : Option String
  period : Option String
deriving DecidableEq, Repr

structure EiaResponse : Type where
  data : Option (List EiaRecord)
deriving DecidableEq, Repr

structure EiaJson : Type where
  response : Option EiaResponse
deriving DecidableEq, Repr

/-- One FRED observation (`obs["value"]` is fed to `float`, `obs["date"]`
is copied). -/
structure FredObs : Type where
  value : PyV
  date : String
deriving DecidableEq, Repr

structure FredJson : Type where
  observations : Option (List FredObs)
deriving DecidableEq, Repr

/-- The process environment: configuration read from env vars, plus one
oracle per external call.  Each `Except` field is the outcome of the
corresponding network/library call — `.error e` is a raised exception,
`.ok v` the value the library returns.  The three Baker Hughes
`re.search` outcomes are supplied as oracles (match of
(date-text, count, signed delta)), since regex semantics are outside the
embedding; everything downstream of them is translated. -/
structure Env : Type where
  EIA_API_KEY : String
  FRED_API_KEY : String
  OPENAI_API_KEY : String
  TELEGRAM_BOT_TOKEN : String
  TELEGRAM_CHAT_ID : String
  /-- `http_get(eia_url).json()` -/
  eiaHttp : Except String EiaJson
  /-- Baker Hughes page text after `soup.get_text(" ", strip=True)` -/
  bakerText : Except String String
  /-- `re.search` for the U.S. / Canada / International rows of `txt_norm` -/
  bakerUS : Option (String × Nat × Int)
  bakerCA : Option (String × Nat × Int)
  bakerINTL : Option (String × Nat × Int)
  /-- per-URL CFTC page text after `soup.get_text("\n", strip=True)` -/
  cftcText : String → Except String String
  /-- `http_get(u).json()` for the two FRED series -/
  fredCpi : Except String FredJson
  fredFunds : Except String FredJson
  /-- the per-ticker `Close` series `_last_close_series` ends up with
  (`history` falling back to `download`, then `dropna`), or the exception
  the library raised -/
  hist : String → Except String (List Rat)
  /-- the OpenAI chat-completion content -/
  openai : Except String String
  /-- `http_post(telegram_url, payload).ok` -/
  telegramPost : Except String Bool

/-! ## EIA fetcher (src/app.py lines 96-183) -/

/-- `{val or 'N/A'}` for a nullable JSON number (`0.0` is falsy). -/
def orNA : Option Rat → String
  | some q => if q = 0 then "N/A" else ratStr q
  | Option.none => "N/A"

/-- The record-classification loop (src lines 126-136): later records
overwrite earlier ones, as dict assignment does. -/
def eiaClassify (records : List EiaRecord) : EiaRaw :=
  records.foldl
    (fun d r =>
      let sdesc := r.series_description.getD ""
      let val := r.value
      let unit := r.units.getD ""
      if strContains sdesc "Ending Stocks" then { d with stocks := some (val, unit, sdesc) }
      else if strContains sdesc "Imports" then { d with imports := some (val, unit, sdesc) }
      else if strContains sdesc "Production" then { d with production := some (val, unit, sdesc) }
      else d)
    ⟨Option.none, Option.none, Option.none⟩

/-- The `try`-guarded AI-summary block (src lines 156-169).  With the
embedded numeric value model `float(... or 0)` cannot raise, but the
handler is kept as in the source. -/
def eiaAnalysis (data : EiaRaw) : String :=
  "\n📈 **AI Summary:**\n" ++
    pyTry
      (do
        let stocks_val : Rat := (match data.stocks with
          | some t => t.1.getD 0
          | Option.none => 0)
        let prod_val : Rat := (match data.production with
          | some t => t.1.getD 0
          | Option.none => 0)
        let l1 := if 420000 < stocks_val then
            "• High crude inventories may pressure prices slightly.\n"
          else "• Lower inventories support a bullish tone.\n"
        let l2 := if 400 < prod_val then
            "• Production remains stable → balanced market.\n"
          else "• Production decline supports upside potential.\n"
        Except.ok (l1 ++ l2))
      (fun _ => "• Not enough data for full evaluation.\n")

/-- Rendered report body (src lines 138-172). -/
def eiaReport (period : String) (data : EiaRaw) : String :=
  let report :=
    "🛢 **EIA Crude Oil Weekly Report (" ++ period ++ ")**\n" ++
    "──────────────────────────────\n"
  let report := report ++ (match data.stocks with
    | some t => "📦 **Stocks:** " ++ orNA t.1 ++ " " ++ t.2.1 ++ "\n"
    | Option.none => "")
  let report := report ++ (match data.imports with
    | some t => "🚢 **Imports:** " ++ orNA t.1 ++ " " ++ t.2.1 ++ "\n"
    | Option.none => "")
  let report := report ++ (match data.production with
    | some t => "⚙️ **Production:** " ++ orNA t.1 ++ " " ++ t.2.1 ++ "\n"
    | Option.none => "")
  report ++ eiaAnalysis data

/-- Body of the fetcher's `try` block (src lines 109-180).  Every bind
may raise; `return {"error": ...}` inside the block is a normal return. -/
def eia_try (env : Env) (st : St) (now : Nat) : Except String (EiaResult × St) := do
  let js ← env.eiaHttp
  let records := ((js.response.map EiaResponse.data).getD Option.none).getD []
  if records.isEmpty then
    return (.err "No EIA Crude Oil records found", st)
  let data := eiaClassify records
  let period := (match records.head? with
    | some r => r.period.getD "N/A"
    | Option.none => "N/A")   -- unreachable: records is non-empty here
  let result := EiaResult.ok period data (eiaReport period data)
  let st' := { st with eia := some (cacheSet result 21600 now) }
  return (result, st')

/-- `get_eia_weekly()`.  The outer `Except` is an exception escaping to
the caller; the source's `except` clause makes that impossible. -/
def get_eia_weekly (env : Env) (st : St) (now : Nat) : Except String (EiaResult × St) :=
  if env.EIA_API_KEY = "" then .ok (.err "EIA_API_KEY missing", st)
  else
    match cacheGet st.eia now with
    | some cached => .ok (cached, st)
    | Option.none =>
      .ok (pyTry (eia_try env st now)
        (fun e => (.err ("EIA fetch error: " ++ e), st)))

/-! ## FRED fetcher (src/app.py lines 324-339) -/

/-- `js["observations"]` (KeyError when absent) then `[-1]` (IndexError
when empty). -/
def fredLastObs (js : FredJson) : Except String FredObs := do
  let obs ← (match js.observations with
    | some l => Except.ok l
    | Option.none => Except.error "KeyError: observations")
  match obs.getLast? with
  | some o => Except.ok o
  | Option.none => Except.error "IndexError: list index out of range"

def fred_try (env : Env) (st : St) (now : Nat) : Except String (FredResult × St) := do
  let cpiJs ← env.fredCpi
  let cpi ← fredLastObs cpiJs
  let fundsJs ← env.fredFunds
  let rate ← fredLastObs fundsJs
  let cpiV ← pyFloatE cpi.value
  let rateV ← pyFloatE rate.value
  let out := FredResult.ok cpiV cpi.date rateV rate.date
  let st' := { st with fred := some (cacheSet out 43200 now) }
  return (out, st')

def get_fred (env : Env) (st : St) (now : Nat) : Except String (FredResult × St) :=
  if env.FRED_API_KEY = "" then .ok (.err "FRED_API_KEY missing", st)
  else
    match cacheGet st.fred now with
    | some cached => .ok (cached, st)
    | Option.none =>
      .ok (pyTry (fred_try env st now) (fun e => (.err ("fred: " ++ e), st)))

/-! ## Baker Hughes fetcher (src/app.py lines 189-266) -/

/-- The anchor scan (src lines 208-215): first anchor found in the page
text yields a window of `[i-80, i+320)` around it. -/
def bakerAnchorSnippet (txt_norm : String) : Option String :=
  let anchors := ["U.S.", "Canada", "International", "Rig Count"]
  (anchors.find? (fun a => strContains txt_norm a)).map
    (fun a =>
      let i := strIdxOf txt_norm a
      strSlice txt_norm (i - 80) (i + 320))

/-- Sentiment from the U.S. delta (src lines 241-250). -/
def bakerSentiment : Option Int → String
  | some d =>
    if 0 < d then "🟥 Bearish — рост числа вышек может увеличить предложение нефти."
    else if d < 0 then "🟩 Bullish — сокращение вышек может сдержать предложение."
    else "⚪ Neutral — без изменения числа вышек."
  | Option.none => "⚪ Neutral — данных по дельте недостаточно."

/-- Body of the `try` block (src lines 199-260).  The three `re.search`
results come from the environment; `rec["as_of"] = rec["as_of"] or ...`
keeps the first date seen (regex dates are non-empty, so truthiness is
presence). -/
def baker_try (env : Env) : Except String BakerResult := do
  let txt ← env.bakerText
  let txt_norm := collapseWS txt
  let snippet0 := bakerAnchorSnippet txt_norm
  let snippet := pyStrip (snippet0.getD (strTake txt_norm 400))
  let usPart : Option String × Option Nat × Option Int := (match env.bakerUS with
    | some m => (some m.1, some m.2.1, some m.2.2)
    | Option.none => (Option.none, Option.none, Option.none))
  let as_of1 := usPart.1
  let caPart : Option String × Option Nat × Option Int := (match env.bakerCA with
    | some m => ((if as_of1.isSome then as_of1 else some m.1), some m.2.1, some m.2.2)
    | Option.none => (as_of1, Option.none, Option.none))
  let intlPart : Option Nat × Option Int := (match env.bakerINTL with
    | some m => (some m.2.1, some m.2.2)
    | Option.none => (Option.none, Option.none))
  return BakerResult.ok snippet "Baker Hughes (Rig Count)" caPart.1
    usPart.2.1 usPart.2.2 caPart.2.1 caPart.2.2 intlPart.1 intlPart.2
    (bakerSentiment usPart.2.2)

/-- The value `out` holds after the `try/except` (src lines 199-262). -/
def bakerOut (env : Env) : BakerResult :=
  pyTry (baker_try env) (fun e => .err ("baker: " ++ e))

/-- `get_baker_hughes()`: the result — error-tagged or not — is cached
for a day (src line 265, outside the `try`). -/
def get_baker_hughes (env : Env) (st : St) (now : Nat) :
    Except String (BakerResult × St) :=
  match cacheGet st.baker now with
  | some cached => .ok (cached, st)
  | Option.none =>
    let out := bakerOut env
    .ok (out, { st with baker := some (cacheSet out 86400 now) })

/-! ## CFTC fetcher (src/app.py lines 268-321) -/

def CFTC_FUT : String := "https://www.cftc.gov/dea/futures/petroleum_lf.htm"
def CFTC_FOP : String := "https://www.cftc.gov/dea/options/petroleum_lof.htm"

def CFTC_KEYS : List String :=
  ["WTI–PHYSICAL", "WTI-PHYSICAL", "WTI PHYSICAL",
   "WTI FINANCIAL CRUDE OIL",
   "BRENT LAST DAY",
   "GASOLINE RBOB",
   "NY HARBOR ULSD",
   "WTI HOUSTON ARGUS/WIT TR MO",
   "WTI MIDLAND ARGUS VS WTI TRADE",
   "USGC HSFO (PLATTS)"]

/-- `_cftc_extract` (src lines 284-293). -/
def _cftc_extract (txt : String) : String :=
  let t := strRemoveChar (strRemoveChar txt '\r') '\x00'
  let found := CFTC_KEYS.foldl
    (fun acc key =>
      if strContains t key then
        let idx := strIdxOf t key
        acc ++ [pyStrip (strSlice t (idx - 140) (idx + 1200))]
      else acc) []
  if found.isEmpty then "" else joinSep "\n\n" found

/-- Body of the outer `try` (src lines 304-317); the per-URL inner `try`
turns an exception into `continue`. -/
def cftc_try (env : Env) : Except String CftcResult := do
  let res := [CFTC_FUT, CFTC_FOP].foldl
    (fun acc url =>
      match pyTryOpt (do
        let txt ← env.cftcText url
        Except.ok (_cftc_extract txt)) with
      | some chunk => if chunk ≠ "" then acc ++ [chunk] else acc
      | Option.none => acc) []
  let snippet0 := pyStrip (joinSep "\n\n" res)
  let snippet := if snippet0 = "" then "No petroleum sections parsed." else snippet0
  return CftcResult.ok snippet "CFTC Disaggregated (Fut/Fut+Opt)"

/-- The value `out` holds after the `try/except` (src lines 304-319). -/
def cftcOut (env : Env) : CftcResult :=
  pyTry (cftc_try env) (fun e => .err ("cftc: " ++ e))

/-- `get_cftc()`: result cached for a day unconditionally (src line 320). -/
def get_cftc (env : Env) (st : St) (now : Nat) : Except String (CftcResult × St) :=
  match cacheGet st.cftc now with
  | some cached => .ok (cached, st)
  | Option.none =>
    let out := cftcOut env
    .ok (out, { st with cftc := some (cacheSet out 86400 now) })

/-! ## Prices fetcher (src/app.py lines 342-394) -/

/-- `_last_close_series(ticker)` (src lines 342-359): the environment
supplies the `Close` series the library produced after `dropna` (the
`history` → `download` fallback is internal to the library boundary), or
the exception its calls raised — which the function's own `try` absorbs
into `(None, None)`. -/
def _last_close_series (env : Env) (ticker : String) : Option Rat × Option Rat :=
  match env.hist ticker with
  | .error _ => (Option.none, Option.none)
  | .ok h =>
    if 2 ≤ h.length then ((h.getLast?), (h.dropLast.getLast?))
    else
      match h with
      | [v] => (some v, some v)
      | _ => (Option.none, Option.none)

/-- The fresh-fetch portion of `get_prices` (src lines 372-387): the
`out` dict after the WTI lookup and the DXY fallback chain. -/
def pricesFresh (env : Env) : PricesOut :=
  let out0 : PricesOut :=
    ⟨Option.none, Option.none, Option.none, Option.none, "Yahoo Finance"⟩
  let w := _last_close_series env "CL=F"
  let d1 := _last_close_series env "^DXY"
  let d2 := if d1.1.isNone then _last_close_series env "DX-Y.NYB" else d1
  let d3 := if d2.1.isNone then _last_close_series env "UUP" else d2
  let out1 := (match w.1, w.2 with
    | some wl, some wp =>
      { out0 with
        WTI := some (pyRound2 wl)
        WTI_change := some (if wp ≠ 0 then pyRound2 ((wl - wp) / wp * 100) else 0) }
    | _, _ => out0)
  (match d3.1, d3.2 with
    | some dl, some dp =>
      { out1 with
        DXY := some (pyRound2 dl)
        DXY_change := some (if dp ≠ 0 then pyRound2 ((dl - dp) / dp * 100) else 0) }
    | _, _ => out1)

/-- `get_prices()` (src lines 361-394).  `if cached: return cached` is a
presence test (the stored dict is non-empty, hence truthy); the final
`and cached` (src line 390) re-tests the same local. -/
def get_prices (env : Env) (st : St) (now : Nat) : Except String (PricesOut × St) :=
  let cached := cacheGet st.prices now
  match cached with
  | some c => .ok (c, st)
  | Option.none =>
    let out := pricesFresh env
    if out.WTI.isNone ∧ out.DXY.isNone ∧ cached.isSome then
      .ok (cached.getD out, st)
    else
      .ok (out, { st with prices := some (cacheSet out 600 now) })

/-! ## The module namespace of src/app.py -/

/-- Every function name bound at the top level of src/app.py (the names
`globals()` can resolve to callables).  Neither `collect` (called by the
`/data` route, line 484) nor `fmt_baker` (probed by `fmt_summary`,
line 669) is among them — neither is defined anywhere in the module. -/
def appFunctionNames : List String :=
  ["utc_now", "http_get", "http_post", "get_cache", "set_cache",
   "_num", "_pct", "send_telegram", "get_eia_weekly", "get_baker_hughes",
   "_cftc_extract", "get_cftc", "get_fred", "_last_close_series",
   "get_prices", "analyze_cftc_snippet", "gpt_analyze_cftc", "index",
   "health", "data_endpoint", "analyze_endpoint", "cron_daily",
   "fmt_prices", "telegram_webhook", "gpt_analyze", "fmt_summary",
   "run_once"]

/-! ## Formatting helpers (src/app.py lines 64-74) -/

/-- `_num(x)`: `f"{float(x):,.2f}"` guarded by `try`, default `"N/A"`. -/
def _num (x : PyV) : String :=
  match pyFloat? x with
  | some q => numFmt2 q
  | Option.none => "N/A"

/-- `_pct(x)`: `f"{float(x):+.2f}%"` guarded by `try`, default the
rendering of `0`. -/
def _pct (x : PyV) : String :=
  match pyFloat? x with
  | some q => signedFmt2 q ++ "%"
  | Option.none => signedFmt2 0 ++ "%"

def PyV.ofOptRat : Option Rat → PyV
  | some q => .num q
  | Option.none => .none

/-! ## `analyze_cftc_snippet` (src/app.py lines 402-436) -/

/-- `re.findall(r"([\d\.]+)", s)`: the maximal runs of digits and dots. -/
def numRunsAux : List Char → List Char → List String
  | [], acc => if acc.isEmpty then [] else [String.mk acc.reverse]
  | c :: cs, acc =>
    if c.isDigit ∨ c = '.' then numRunsAux cs (c :: acc)
    else if acc.isEmpty then numRunsAux cs []
    else String.mk acc.reverse :: numRunsAux cs []

def findNumRuns (s : String) : List String :=
  numRunsAux s.toList []

def allDigits (s : String) : Bool := s.toList.all Char.isDigit

def digitsVal (s : String) : Nat :=
  s.toList.foldl (fun n c => n * 10 + (c.toNat - '0'.toNat)) 0

/-- Split a character list on `'.'` (Python `s.split(".")` on the
digit-and-dot tokens fed to `float`). -/
def splitDots : List Char → List (List Char)
  | [] => [[]]
  | c :: cs =>
    if c = '.' then [] :: splitDots cs
    else
      match splitDots cs with
      | h :: t => (c :: h) :: t
      | [] => [[c]]

/-- Python `float` on a `[\d.]+` token: at most one dot and at least one
digit (`"12."`, `".5"` parse; `"."`, `"1.2.3"` raise `ValueError`). -/
def parseDotNum (s : String) : Except String Rat :=
  let bad : Except String Rat :=
    .error ("could not convert string to float: " ++ s)
  match (splitDots s.toList).map String.mk with
  | [a] => if a ≠ "" ∧ allDigits a then .ok (digitsVal a) else bad
  | [a, b] =>
    if (a ≠ "" ∨ b ≠ "") ∧ allDigits a ∧ allDigits b then
      .ok ((digitsVal a : Rat) + (digitsVal b : Rat) / (10 : Rat) ^ b.length)
    else bad
  | _ => bad

def analyze_cftc_snippet (snippet : String) : String :=
  if snippet = "" then "CFTC: данные отсутствуют."
  else
    let nums := findNumRuns snippet
    if nums.length < 3 then "CFTC: не удалось извлечь позиции."
    else
      pyTry
        (do
          let producers ← parseDotNum (nums.getD 0 "")
          let money_long ← parseDotNum (nums.getD 1 "")
          let money_short ← parseDotNum (nums.getD 2 "")
          let diff := money_long - money_short
          let sentiment :=
            if 10 < diff then "🟩 Bullish — фонды наращивают длинные позиции."
            else if diff < -10 then "🟥 Bearish — фонды увеличивают короткие позиции."
            else "⚪ Neutral — баланс длинных и коротких позиций."
          Except.ok
            ("📊 <b>CFTC Snapshot</b>\n" ++
             "• Producers: " ++ fmt1 producers ++ "%\n" ++
             "• Managed Money (Long): " ++ fmt1 money_long ++ "%\n" ++
             "• Managed Money (Short): " ++ fmt1 money_short ++ "%\n" ++
             sentiment))
        (fun e => "CFTC parsing error: " ++ e)

/-! ## `send_telegram` (src/app.py lines 77-94) -/

/-- String truthiness for `chat_id or TELEGRAM_CHAT_ID` and the
`if not chat_id` guard. -/
def orStr (a b : String) : String := if a = "" then b else a

def send_telegram (env : Env) (html_text : String) (chat_id : Option String) : Bool :=
  let _ := html_text   -- the message body goes to the external API; only `r.ok` comes back
  if env.TELEGRAM_BOT_TOKEN = "" then false
  else
    let chat := orStr (chat_id.getD "") env.TELEGRAM_CHAT_ID
    if chat = "" then false
    else pyTry (do let r ← env.telegramPost; Except.ok r) (fun _ => false)

/-! ## `gpt_analyze` (src/app.py lines 596-660) -/

/-- Truthiness of a nullable float (`if wti:`). -/
def truthyR : Option Rat → Bool
  | some q => q ≠ 0
  | Option.none => false

/-- The rule-based fallback plan (src lines 601-629). -/
def gptRuleBased (prices : PricesOut) : String :=
  let wti := prices.WTI
  let ch := prices.WTI_change
  let dxy := prices.DXY_change
  let rec_ :=
    match wti with
    | Option.none => "NEUTRAL"
    | some _ =>
      let score := (ch.getD 0) - (dxy.getD 0)
      if 0 < score then "BUY" else if score < 0 then "SELL" else "NEUTRAL"
  let tgtStp : Option Rat × Option Rat :=
    if truthyR wti then
      let w := wti.getD 0
      let _vol := max (|ch.getD 0|) 0.6 / 100
      let tgt := pyRound2 (w * (1 + (if rec_ = "BUY" then 0.018 else -0.018)))
      let stp := pyRound2 (w * (1 - (if rec_ = "BUY" then 0.009 else -0.009)))
      (some tgt, some stp)
    else (Option.none, Option.none)
  joinSep "\n"
    ["🔴 <b>EIA Oil Report Analysis</b>",
     "🎯 <b>" ++ rec_ ++ "</b>",
     "💰 Цена WTI: " ++ (if truthyR wti then "$" ++ _num (.ofOptRat wti) else "N/A"),
     "",
     "<b>Торговый план:</b>",
     "🎯 Цель: " ++ (if truthyR tgtStp.1 then "$" ++ _num (.ofOptRat tgtStp.1) else "Не определена"),
     "⛔ Стоп: " ++ (if truthyR tgtStp.2 then "$" ++ _num (.ofOptRat tgtStp.2) else "Не определен")]

/-- `gpt_analyze(payload, prices)`: without an OpenAI key the rule-based
plan; with one, the model's reply or `"GPT error: ..."`.  The prompt
(json.dumps of the payload) only feeds the external model, whose reply
is the `openai` oracle. -/
def gpt_analyze (env : Env) (payloadDump : String) (prices : PricesOut) : String :=
  let _ := payloadDump   -- json.dumps(payload) only seeds the prompt of the external model
  if env.OPENAI_API_KEY = "" then gptRuleBased prices
  else pyTry (do let r ← env.openai; Except.ok r) (fun e => "GPT error: " ++ e)

/-! ## The aggregate payload and `fmt_summary` (src/app.py lines 662-748) -/

/-- The payload dict `run_once` assembles (src lines 764-773) and
`fmt_summary` consumes via `.get`: the five source entries plus the
derived CFTC interpretation.  `Option.none` models an absent key
(`payload.get(k) or {}` turns it into an empty dict). -/
structure Payload : Type where
  eia : Option EiaResult
  baker : Option BakerResult
  cftc : Option CftcResult
  fred : Option FredResult
  prices : Option PricesOut
  cftc_interpretation : Option String
deriving DecidableEq, Repr

/-- One dict value of the payload, for the key-level view of the dict. -/
inductive PVal : Type
  | eia (e : EiaResult)
  | baker (b : BakerResult)
  | cftc (c : CftcResult)
  | fred (f : FredResult)
  | prices (p : PricesOut)
  | interp (s : String)
deriving DecidableEq, Repr

/-- The payload as the key/value pairs of the Python dict, in insertion
order (src lines 764-773). -/
def payloadEntries (p : Payload) : List (String × PVal) :=
  ((p.eia.map (fun e => ("eia", PVal.eia e))).toList) ++
  ((p.baker.map (fun b => ("baker", PVal.baker b))).toList) ++
  ((p.cftc.map (fun c => ("cftc", PVal.cftc c))).toList) ++
  ((p.fred.map (fun f => ("fred", PVal.fred f))).toList) ++
  ((p.prices.map (fun pr => ("prices", PVal.prices pr))).toList) ++
  ((p.cftc_interpretation.map (fun s => ("cftc_interpretation", PVal.interp s))).toList)

/-- `baker.get("snippet")` through `payload.get("baker") or {}`. -/
def bakerSnippet? : Option BakerResult → Option String
  | some (.ok snippet _ _ _ _ _ _ _ _ _) => some snippet
  | _ => Option.none

/-- `baker.get("sentiment")`. -/
def bakerSentiment? : Option BakerResult → Option String
  | some (.ok _ _ _ _ _ _ _ _ _ sentiment) => some sentiment
  | _ => Option.none

/-- String truthiness of an optional string (`None` and `""` are falsy). -/
def truthyS (s : Option String) : Bool := s.getD "" ≠ ""

/-- Baker Hughes section (src lines 666-682).  `'fmt_baker' in globals()`
is a lookup in the module namespace; the branch it guards is unreachable
because the module defines no `fmt_baker`. -/
def fmtBakerSection (baker : Option BakerResult) : List String :=
  if appFunctionNames.contains "fmt_baker" then
    ["", "<fmt_baker>"]   -- dead branch: no `fmt_baker` exists to call
  else
    let snippet := bakerSnippet? baker
    let sentiment := bakerSentiment? baker
    if truthyS snippet then
      let s := snippet.getD ""
      ["\n🛠 <b>Baker Hughes Rig Count</b>",
       "• " ++ strTake s 300 ++ (if 300 < s.toList.length then "..." else "")] ++
      (if truthyS sentiment then [sentiment.getD ""] else [])
    else ["\n🛠 <b>Baker Hughes:</b> данные не получены."]

/-- `raw.get(k, ["N/A", ""])[0]` as a dynamic scalar. -/
def eiaCellVal : Option (Option Rat × String × String) → PyV
  | some t => PyV.ofOptRat t.1
  | Option.none => .str "N/A"

/-- `raw.get(k, ["", ""])[1]`. -/
def eiaCellUnit : Option (Option Rat × String × String) → String
  | some t => t.2.1
  | Option.none => ""

/-- The EIA sentiment `try` block (src lines 697-707): both values must
convert with `float`, else the handler's neutral line. -/
def eiaSectionSentiment (stocks_val prod_val : PyV) : String :=
  pyTry
    (do
      let s_val ← pyFloatE stocks_val
      let p_val ← pyFloatE prod_val
      Except.ok
        (if 820000 < s_val ∧ 400 < p_val then
          "🟥 <b>Bearish:</b> High inventories & steady output may pressure prices."
        else if s_val < 780000 ∧ p_val < 400 then
          "🟩 <b>Bullish:</b> Falling stocks & reduced output support upside."
        else "⚪ <b>Neutral:</b> Balanced crude market."))
    (fun _ => "⚪ <b>Neutral:</b> Data incomplete.")

/-- EIA section (src lines 684-716): rendered only when the entry is a
dict carrying a `"raw"` key, i.e. a success record — an error-tagged or
absent entry contributes nothing. -/
def fmtEiaSection (eia : Option EiaResult) : List String :=
  match eia with
  | some (.ok period raw _report) =>
    let stocks_val := eiaCellVal raw.stocks
    let imports_val := eiaCellVal raw.imports
    let prod_val := eiaCellVal raw.production
    ["\n📦 <b>EIA Weekly Crude Snapshot</b>",
     "• Period: " ++ period,
     "• Stocks: " ++ _num stocks_val ++ " " ++ eiaCellUnit raw.stocks,
     "• Imports: " ++ _num imports_val ++ " " ++ eiaCellUnit raw.imports,
     "• Production: " ++ _num prod_val ++ " " ++ eiaCellUnit raw.production,
     eiaSectionSentiment stocks_val prod_val]
  | _ => []

/-- CFTC section (src lines 718-721). -/
def fmtCftcSection (cftc_txt : Option String) : List String :=
  if truthyS cftc_txt then ["\n📊 <b>CFTC</b>", cftc_txt.getD ""] else []

/-- Macro section (src lines 723-730): any present dict — error-tagged
included — is non-empty and renders (an error record shows `N/A`). -/
def fmtFredSection (fred : Option FredResult) : List String :=
  match fred with
  | some f =>
    let cpi : PyV := (match f with
      | .ok c _ _ _ => .num c
      | .err _ => .none)
    let rate : PyV := (match f with
      | .ok _ _ r _ => .num r
      | .err _ => .none)
    ["\n🏦 <b>Macro (FRED)</b>",
     "• CPI: " ++ _num cpi,
     "• Fed Funds: " ++ _num rate ++ "%"]
  | Option.none => []

/-- Market section (src lines 732-739): a present prices dict is
non-empty and renders, missing quotes as `N/A`. -/
def fmtMarketSection (pr : Option PricesOut) : List String :=
  match pr with
  | some p =>
    ["\n💹 <b>Market</b>",
     "🛢 WTI: $" ++ _num (.ofOptRat p.WTI) ++ " (24h " ++ _pct (.ofOptRat p.WTI_change) ++ ")",
     "💵 DXY: " ++ _num (.ofOptRat p.DXY) ++ " (24h " ++ _pct (.ofOptRat p.DXY_change) ++ ")"]
  | Option.none => []

/-- The `lines` list `fmt_summary` joins (src lines 662-748), with the
clock read (`utc_now()`, line 663) an explicit argument. -/
def fmt_summary_lines (payload : Payload) (analysis : Option String) (now : Nat) :
    List String :=
  ["🧾 <b>Oil Report: SUMMARY</b>", "🕒 " ++ utc_now now] ++
  fmtBakerSection payload.baker ++
  fmtEiaSection payload.eia ++
  fmtCftcSection payload.cftc_interpretation ++
  fmtFredSection payload.fred ++
  fmtMarketSection payload.prices ++
  (if truthyS analysis then ["\n🧠 <b>AI Analysis</b>", analysis.getD ""] else [])

/-- `fmt_summary(payload, analysis=None)`. -/
def fmt_summary (payload : Payload) (analysis : Option String) (now : Nat) : String :=
  joinSep "\n" (fmt_summary_lines payload analysis now)

/-! ## `run_once` (src/app.py lines 751-791)

The body calls the five fetchers one after another (lines 757-761);
under a latency model in which each fetcher call takes a fixed duration,
the clock observed by call *n+1* is the clock of call *n* plus call
*n*'s duration.  `FetchTimes` carries those five durations. -/

structure FetchTimes : Type where
  eia : Nat
  baker : Nat
  cftc : Nat
  fred : Nat
  prices : Nat
deriving DecidableEq, Repr

/-- Clock at which each successive fetcher is entered when `run_once`
starts at `t0`. -/
def tBaker (d : FetchTimes) (t0 : Nat) : Nat := t0 + d.eia
def tCftc (d : FetchTimes) (t0 : Nat) : Nat := t0 + d.eia + d.baker
def tFred (d : FetchTimes) (t0 : Nat) : Nat := t0 + d.eia + d.baker + d.cftc
def tPrices (d : FetchTimes) (t0 : Nat) : Nat := t0 + d.eia + d.baker + d.cftc + d.fred

/-- Clock when the last fetcher returns (formatting and the report build
are local computation; their cost is not modelled). -/
def run_once_end (d : FetchTimes) (t0 : Nat) : Nat :=
  t0 + d.eia + d.baker + d.cftc + d.fred + d.prices

/-- Wall-clock time a full collection takes under the latency model. -/
def run_once_elapsed (d : FetchTimes) (t0 : Nat) : Nat :=
  run_once_end d t0 - t0

/-- The five sequential fetcher calls of `run_once` (src lines 757-761),
threading `CACHE` and the clock. -/
def run_once_fetch (env : Env) (d : FetchTimes) (st : St) (t0 : Nat) :
    Except String ((EiaResult × BakerResult × CftcResult × FredResult × PricesOut) × St) := do
  let (eia, st1) ← get_eia_weekly env st t0
  let (baker, st2) ← get_baker_hughes env st1 (tBaker d t0)
  let (cftc, st3) ← get_cftc env st2 (tCftc d t0)
  let (fred, st4) ← get_fred env st3 (tFred d t0)
  let (prices, st5) ← get_prices env st4 (tPrices d t0)
  return ((eia, baker, cftc, fred, prices), st5)

/-- The payload dict assembled from the five results (src lines 764-773,
including the derived `cftc_interpretation` entry). -/
def mkRunPayload (eia : EiaResult) (baker : BakerResult) (cftc : CftcResult)
    (fred : FredResult) (prices : PricesOut) : Payload :=
  { eia := some eia, baker := some baker, cftc := some cftc,
    fred := some fred, prices := some prices,
    cftc_interpretation := some (analyze_cftc_snippet cftc.snippetD) }

/-- Body of `run_once`'s `try` block (src lines 756-785).  `mode` is
accepted and — as in the source — never read by the body. -/
def run_once_body (env : Env) (d : FetchTimes) (mode : String) (st : St) (t0 : Nat)
    (chat_id : Option String) : Except String (String × St) := do
  let _ := mode
  let (rs, st5) ← run_once_fetch env d st t0
  let payload := mkRunPayload rs.1 rs.2.1 rs.2.2.1 rs.2.2.2.1 rs.2.2.2.2
  let analysis := gpt_analyze env (toString (repr payload)) rs.2.2.2.2
  let report := fmt_summary payload (some analysis) (run_once_end d t0)
  let _sent := if truthyS chat_id then some (send_telegram env report chat_id) else Option.none
  return (report, st5)

/-- `run_once(mode="summary", chat_id=None)`: returns the report string;
the `except` arm (unreachable — the body never raises, see the claim
theorems) degrades to the error message. -/
def run_once (env : Env) (d : FetchTimes) (mode : String) (st : St) (t0 : Nat)
    (chat_id : Option String) : String × St :=
  pyTry (run_once_body env d mode st t0 chat_id)
    (fun e => ("❌ run_once error: " ++ e, st))

/-! ## `/data` endpoint (src/app.py lines 481-484) -/

/-- `data_endpoint()`: resolves the name `collect` in the module
namespace and applies it — but src/app.py binds no such name, so every
request raises `NameError` (which Flask turns into a 500 response)
instead of producing the mode's aggregate report. -/
def data_endpoint (mode : String) : Except String String :=
  if appFunctionNames.contains "collect" then
    .ok ("<collect " ++ mode ++ ">")   -- dead branch: no `collect` to call
  else .error "NameError: name 'collect' is not defined"

/-! ## Helper lemmas shared by the claim theorems -/

@[simp] theorem exBind_ok {α β : Type} (a : α) (f : α → Except String β) :
    (Except.ok a >>= f) = f a := rfl

@[simp] theorem exBind_error {α β : Type} (e : String) (f : α → Except String β) :
    ((Except.error e : Except String α) >>= f) = Except.error e := rfl

@[simp] theorem exPure {α : Type} (a : α) :
    (pure a : Except String α) = Except.ok a := rfl

/-- A valid (unexpired) slot row reads back its data. -/
theorem cacheGet_valid (e : CacheEntry α) (now : Nat) (h : now ≤ e.ts + e.ttl) :
    cacheGet (some e) now = some e.data := by
  simp only [cacheGet]
  rw [if_neg (by omega)]

/-- A row strictly past its expiry reads as absent. -/
theorem cacheGet_expired (e : CacheEntry α) (now : Nat) (h : e.ts + e.ttl < now) :
    cacheGet (some e) now = Option.none := by
  simp only [cacheGet]
  rw [if_pos h]

/-- `eia_try` either raises or returns with, at most, the "eia" slot
changed. -/
theorem eia_try_state (env : Env) (st : St) (now : Nat) (r : EiaResult) (st' : St)
    (h : eia_try env st now = Except.ok (r, st')) :
    ∃ sl, st' = { st with eia := sl } := by
  unfold eia_try at h
  cases he : env.eiaHttp with
  | error e => rw [he] at h; simp at h
  | ok js =>
    rw [he] at h
    simp only [exBind_ok, exPure] at h
    split at h
    · exact ⟨st.eia, by
        have := (Prod.mk.injEq .. ▸ Except.ok.inj h)
        simp only [Prod.mk.injEq] at this ⊢
        rw [← this.2]⟩
    · exact ⟨_, by
        have := Except.ok.inj h
        simp only [Prod.mk.injEq] at this
        rw [← this.2]⟩

/-- `get_eia_weekly` never raises; at most the "eia" slot changes. -/
theorem get_eia_shape (env : Env) (st : St) (now : Nat) :
    ∃ r sl, get_eia_weekly env st now = Except.ok (r, { st with eia := sl }) := by
  unfold get_eia_weekly
  by_cases hk : env.EIA_API_KEY = ""
  · rw [if_pos hk]; exact ⟨_, st.eia, rfl⟩
  · rw [if_neg hk]
    cases hc : cacheGet st.eia now with
    | some cached => exact ⟨cached, st.eia, rfl⟩
    | none =>
      cases ht : eia_try env st now with
      | error e =>
        exact ⟨.err ("EIA fetch error: " ++ e), st.eia, by simp [pyTry, ht]⟩
      | ok pr =>
        obtain ⟨sl, hsl⟩ := eia_try_state env st now pr.1 pr.2 (by rw [ht])
        exact ⟨pr.1, sl, by simp [pyTry, ht, ← hsl]⟩

/-- `fred_try` either raises or returns with, at most, the "fred" slot
changed. -/
theorem fred_try_state (env : Env) (st : St) (now : Nat) (r : FredResult) (st' : St)
    (h : fred_try env st now = Except.ok (r, st')) :
    ∃ sl, st' = { st with fred := sl } := by
  unfold fred_try at h
  cases h1 : env.fredCpi with
  | error e => rw [h1] at h; simp at h
  | ok cpiJs =>
    rw [h1] at h
    simp only [exBind_ok] at h
    cases h2 : fredLastObs cpiJs with
    | error e => rw [h2] at h; simp at h
    | ok cpi =>
      rw [h2] at h
      simp only [exBind_ok] at h
      cases h3 : env.fredFunds with
      | error e => rw [h3] at h; simp at h
      | ok fundsJs =>
        rw [h3] at h
        simp only [exBind_ok] at h
        cases h4 : fredLastObs fundsJs with
        | error e => rw [h4] at h; simp at h
        | ok rate =>
          rw [h4] at h
          simp only [exBind_ok] at h
          cases h5 : pyFloatE cpi.value with
          | error e => rw [h5] at h; simp at h
          | ok cpiV =>
            rw [h5] at h
            simp only [exBind_ok] at h
            cases h6 : pyFloatE rate.value with
            | error e => rw [h6] at h; simp at h
            | ok rateV =>
              rw [h6] at h
              simp only [exBind_ok, exPure] at h
              have := Except.ok.inj h
              simp only [Prod.mk.injEq] at this
              exact ⟨_, this.2.symm⟩

/-- `get_fred` never raises; at most the "fred" slot changes. -/
theorem get_fred_shape (env : Env) (st : St) (now : Nat) :
    ∃ r sl, get_fred env st now = Except.ok (r, { st with fred := sl }) := by
  unfold get_fred
  by_cases hk : env.FRED_API_KEY = ""
  · rw [if_pos hk]; exact ⟨_, st.fred, rfl⟩
  · rw [if_neg hk]
    cases hc : cacheGet st.fred now with
    | some cached => exact ⟨cached, st.fred, rfl⟩
    | none =>
      cases ht : fred_try env st now with
      | error e =>
        exact ⟨.err ("fred: " ++ e), st.fred, by simp [pyTry, ht]⟩
      | ok pr =>
        obtain ⟨sl, hsl⟩ := fred_try_state env st now pr.1 pr.2 (by rw [ht])
        exact ⟨pr.1, sl, by simp [pyTry, ht, ← hsl]⟩

/-- `get_baker_hughes` on a cache miss computes `bakerOut env`, stores
it for a day and returns it. -/
theorem get_baker_miss (env : Env) (st : St) (now : Nat)
    (h : cacheGet st.baker now = Option.none) :
    get_baker_hughes env st now =
      Except.ok (bakerOut env, { st with baker := some (cacheSet (bakerOut env) 86400 now) }) := by
  unfold get_baker_hughes
  rw [h]

/-- `get_baker_hughes` never raises; at most the "baker" slot changes. -/
theorem get_baker_shape (env : Env) (st : St) (now : Nat) :
    ∃ r sl, get_baker_hughes env st now = Except.ok (r, { st with baker := sl }) := by
  unfold get_baker_hughes
  cases hc : cacheGet st.baker now with
  | some cached => exact ⟨cached, st.baker, rfl⟩
  | none => exact ⟨bakerOut env, some (cacheSet (bakerOut env) 86400 now), rfl⟩

/-- `get_cftc` on a cache miss computes `cftcOut env`, stores it for a
day and returns it. -/
theorem get_cftc_miss (env : Env) (st : St) (now : Nat)
    (h : cacheGet st.cftc now = Option.none) :
    get_cftc env st now =
      Except.ok (cftcOut env, { st with cftc := some (cacheSet (cftcOut env) 86400 now) }) := by
  unfold get_cftc
  rw [h]

/-- `get_cftc` never raises; at most the "cftc" slot changes. -/
theorem get_cftc_shape (env : Env) (st : St) (now : Nat) :
    ∃ r sl, get_cftc env st now = Except.ok (r, { st with cftc := sl }) := by
  unfold get_cftc
  cases hc : cacheGet st.cftc now with
  | some cached => exact ⟨cached, st.cftc, rfl⟩
  | none => exact ⟨cftcOut env, some (cacheSet (cftcOut env) 86400 now), rfl⟩

/-- On a cache miss the dead "return last cache" branch (src lines
390-391) cannot fire — `cached` is `None` there — so `get_prices`
stores and returns the freshly built record, whatever it contains. -/
theorem get_prices_miss (env : Env) (st : St) (now : Nat)
    (h : cacheGet st.prices now = Option.none) :
    get_prices env st now =
      Except.ok (pricesFresh env, { st with prices := some (cacheSet (pricesFresh env) 600 now) }) := by
  unfold get_prices
  rw [h]
  simp

/-- `get_prices` never raises; at most the "prices" slot changes. -/
theorem get_prices_shape (env : Env) (st : St) (now : Nat) :
    ∃ r sl, get_prices env st now = Except.ok (r, { st with prices := sl }) := by
  cases hc : cacheGet st.prices now with
  | some cached =>
    exact ⟨cached, st.prices, by unfold get_prices; rw [hc]⟩
  | none =>
    exact ⟨pricesFresh env, some (cacheSet (pricesFresh env) 600 now), get_prices_miss env st now hc⟩

/-- Replay lemmas: a fetcher whose slot holds a valid row returns it
unchanged, for any environment (no network call can influence the
result). -/
theorem get_baker_hit (env : Env) (st : St) (now : Nat) (e : CacheEntry BakerResult)
    (hrow : st.baker = some e) (hvalid : now ≤ e.ts + e.ttl) :
    get_baker_hughes env st now = Except.ok (e.data, st) := by
  unfold get_baker_hughes
  rw [hrow, cacheGet_valid e now hvalid]

theorem get_cftc_hit (env : Env) (st : St) (now : Nat) (e : CacheEntry CftcResult)
    (hrow : st.cftc = some e) (hvalid : now ≤ e.ts + e.ttl) :
    get_cftc env st now = Except.ok (e.data, st) := by
  unfold get_cftc
  rw [hrow, cacheGet_valid e now hvalid]

theorem get_prices_hit (env : Env) (st : St) (now : Nat) (e : CacheEntry PricesOut)
    (hrow : st.prices = some e) (hvalid : now ≤ e.ts + e.ttl) :
    get_prices env st now = Except.ok (e.data, st) := by
  unfold get_prices
  rw [hrow, cacheGet_valid e now hvalid]

/-- A raised EIA network/parse exception surfaces as the error-tagged
dict, with nothing cached. -/
theorem eia_net_err (env : Env) (st : St) (now : Nat) (e : String)
    (hk : env.EIA_API_KEY ≠ "") (hc : cacheGet st.eia now = Option.none)
    (he : env.eiaHttp = Except.error e) :
    get_eia_weekly env st now =
      Except.ok (.err ("EIA fetch error: " ++ e), st) := by
  have ht : eia_try env st now = Except.error e := by
    unfold eia_try
    rw [he]
    simp
  unfold get_eia_weekly
  rw [if_neg hk, hc]
  simp [pyTry, ht]

/-- A raised FRED network/parse exception surfaces as the error-tagged
dict, with nothing cached. -/
theorem fred_net_err (env : Env) (st : St) (now : Nat) (e : String)
    (hk : env.FRED_API_KEY ≠ "") (hc : cacheGet st.fred now = Option.none)
    (he : env.fredCpi = Except.error e) :
    get_fred env st now = Except.ok (.err ("fred: " ++ e), st) := by
  have ht : fred_try env st now = Except.error e := by
    unfold fred_try
    rw [he]
    simp
  unfold get_fred
  rw [if_neg hk, hc]
  simp [pyTry, ht]

/-- A raised Baker Hughes exception surfaces as the error-tagged dict,
which is itself cached for a day. -/
theorem baker_net_err (env : Env) (st : St) (now : Nat) (e : String)
    (hc : cacheGet st.baker now = Option.none)
    (he : env.bakerText = Except.error e) :
    get_baker_hughes env st now =
      Except.ok (.err ("baker: " ++ e),
        { st with baker := some (cacheSet (.err ("baker: " ++ e)) 86400 now) }) := by
  have ho : bakerOut env = .err ("baker: " ++ e) := by
    unfold bakerOut baker_try
    rw [he]
    simp [pyTry]
  rw [get_baker_miss env st now hc, ho]

/-- `run_once_fetch` always succeeds: the batch is never aborted by a
fetcher. -/
theorem run_once_fetch_ok (env : Env) (d : FetchTimes) (st : St) (t0 : Nat) :
    ∃ e b c f p st', run_once_fetch env d st t0 =
      Except.ok ((e, b, c, f, p), st') := by
  obtain ⟨e, sl1, h1⟩ := get_eia_shape env st t0
  obtain ⟨b, sl2, h2⟩ := get_baker_shape env { st with eia := sl1 } (tBaker d t0)
  obtain ⟨c, sl3, h3⟩ := get_cftc_shape env { st with eia := sl1, baker := sl2 } (tCftc d t0)
  obtain ⟨f, sl4, h4⟩ :=
    get_fred_shape env { st with eia := sl1, baker := sl2, cftc := sl3 } (tFred d t0)
  obtain ⟨p, sl5, h5⟩ :=
    get_prices_shape env { st with eia := sl1, baker := sl2, cftc := sl3, fred := sl4 }
      (tPrices d t0)
  refine ⟨e, b, c, f, p,
    { eia := sl1, baker := sl2, cftc := sl3, fred := sl4, prices := sl5 }, ?_⟩
  unfold run_once_fetch
  rw [h1]
  simp only [exBind_ok]
  rw [h2]
  simp only [exBind_ok]
  rw [h3]
  simp only [exBind_ok]
  rw [h4]
  simp only [exBind_ok]
  rw [h5]
  simp only [exBind_ok, exPure]

/-- From an empty cache, the sequential schedule is visible in the
timestamps of the rows the batch leaves behind: Baker Hughes's row
carries the clock after the EIA call, CFTC's the clock after Baker,
prices' the clock after all four predecessors. -/
theorem run_once_fetch_emptySt (env : Env) (d : FetchTimes) (t0 : Nat) :
    ∃ e sl1 f sl4, run_once_fetch env d emptySt t0 =
      Except.ok ((e, bakerOut env, cftcOut env, f, pricesFresh env),
        { eia := sl1,
          baker := some (cacheSet (bakerOut env) 86400 (tBaker d t0)),
          cftc := some (cacheSet (cftcOut env) 86400 (tCftc d t0)),
          fred := sl4,
          prices := some (cacheSet (pricesFresh env) 600 (tPrices d t0)) }) := by
  obtain ⟨e, sl1, h1⟩ := get_eia_shape env emptySt t0
  have h2 := get_baker_miss env
    ⟨sl1, Option.none, Option.none, Option.none, Option.none⟩ (tBaker d t0) rfl
  have h3 := get_cftc_miss env
    ⟨sl1, some (cacheSet (bakerOut env) 86400 (tBaker d t0)), Option.none,
      Option.none, Option.none⟩ (tCftc d t0) rfl
  obtain ⟨f, sl4, h4⟩ := get_fred_shape env
    ⟨sl1, some (cacheSet (bakerOut env) 86400 (tBaker d t0)),
      some (cacheSet (cftcOut env) 86400 (tCftc d t0)), Option.none, Option.none⟩
    (tFred d t0)
  have h5 := get_prices_miss env
    ⟨sl1, some (cacheSet (bakerOut env) 86400 (tBaker d t0)),
      some (cacheSet (cftcOut env) 86400 (tCftc d t0)), sl4, Option.none⟩
    (tPrices d t0) rfl
  refine ⟨e, sl1, f, sl4, ?_⟩
  unfold run_once_fetch
  rw [h1]
  simp only [exBind_ok, emptySt]
  rw [h2]
  simp only [exBind_ok]
  rw [h3]
  simp only [exBind_ok]
  rw [h4]
  simp only [exBind_ok]
  rw [h5]
  simp only [exBind_ok, exPure]

/-- A successful fetch batch determines `run_once`'s result: the
formatted summary and the final cache state — never the `except` arm's
error message. -/
theorem run_once_of_fetch (env : Env) (d : FetchTimes) (mode : String) (st : St)
    (t0 : Nat) (chat : Option String)
    (e : EiaResult) (b : BakerResult) (c : CftcResult) (f : FredResult) (p : PricesOut)
    (st' : St) (h : run_once_fetch env d st t0 = Except.ok ((e, b, c, f, p), st')) :
    run_once env d mode st t0 chat =
      (fmt_summary (mkRunPayload e b c f p)
        (some (gpt_analyze env (toString (repr (mkRunPayload e b c f p))) p))
        (run_once_end d t0), st') := by
  unfold run_once run_once_body
  rw [h]
  simp [pyTry]

/-- `payload.get(key)` on the assembled dict. -/
def payloadGet (p : Payload) (k : String) : Option PVal :=
  ((payloadEntries p).find? (fun kv => kv.1 = k)).map (fun kv => kv.2)

/-- An environment in which every network call raises and every env-var
credential needed by a fetcher is set. -/
def envAllFail : Env :=
  { EIA_API_KEY := "k", FRED_API_KEY := "k", OPENAI_API_KEY := "",
    TELEGRAM_BOT_TOKEN := "", TELEGRAM_CHAT_ID := "",
    eiaHttp := .error "boom",
    bakerText := .error "boom",
    bakerUS := Option.none, bakerCA := Option.none, bakerINTL := Option.none,
    cftcText := fun _ => .error "connection refused",
    fredCpi := .error "boom", fredFunds := .error "boom",
    hist := fun _ => .error "boom",
    openai := .error "boom", telegramPost := .error "boom" }

/-! ## Claim theorems -/

/-- C2: for every key `k`, value `v` and TTL, `get(k)` immediately after
`set(k, v, ttl)` returns `v`; `get(k)` at any time strictly past
`storedAt + ttl` returns absent; and a stored entry is read back exactly
when `now ≤ storedAt + ttl`. -/
theorem C2_cache_ttl {α : Type} (c : CacheMap α) (k : String) (v : α)
    (ttl t t' : Nat) (hexp : t + ttl < t') :
    get_cache (set_cache c t k v ttl) t k = some v ∧
    get_cache (set_cache c t k v ttl) t' k = Option.none ∧
    (∀ row : CacheEntry α, cacheRow c k = some row →
      (get_cache c t k = some row.data ↔ t ≤ row.ts + row.ttl)) := by
  refine ⟨?_, ?_, ?_⟩
  · rw [get_cache_eq_cacheGet, set_cache_row_eq_cacheSet]
    exact cacheGet_valid ⟨t, ttl, v⟩ t (show t ≤ t + ttl by omega)
  · rw [get_cache_eq_cacheGet, set_cache_row_eq_cacheSet]
    exact cacheGet_expired ⟨t, ttl, v⟩ t' (show t + ttl < t' from hexp)
  · intro row hrow
    rw [get_cache_eq_cacheGet, hrow]
    simp only [cacheGet]
    by_cases hl : row.ts + row.ttl < t
    · rw [if_pos hl]
      constructor
      · intro h; exact absurd h (by simp)
      · intro h; omega
    · rw [if_neg hl]
      simp only [Option.some.injEq]
      constructor
      · intro _; omega
      · intro _; trivial

/-- C2 witness: a concrete key stored at `t = 0` with a 600-second TTL
reads back at once and is absent at `t = 601`. -/
theorem C2_cache_ttl_witness :
    get_cache (set_cache ([] : CacheMap Nat) 0 "prices" 7 600) 0 "prices" = some 7 ∧
    get_cache (set_cache ([] : CacheMap Nat) 0 "prices" 7 600) 601 "prices" = Option.none :=
  ⟨(C2_cache_ttl [] "prices" 7 600 0 601 (by omega)).1,
   (C2_cache_ttl [] "prices" 7 600 0 601 (by omega)).2.1⟩

/-- C9: a second `set` on the same key unconditionally overwrites the
row, resetting `storedAt` to the second set's clock, and `get` then
yields the second value. -/
theorem C9_cache_overwrite {α : Type} (c : CacheMap α) (k : String) (v1 v2 : α)
    (ttl1 ttl2 t1 t2 : Nat) :
    cacheRow (set_cache (set_cache c t1 k v1 ttl1) t2 k v2 ttl2) k =
      some ⟨t2, ttl2, v2⟩ ∧
    get_cache (set_cache (set_cache c t1 k v1 ttl1) t2 k v2 ttl2) t2 k = some v2 := by
  constructor
  · exact set_cache_row_eq_cacheSet (set_cache c t1 k v1 ttl1) t2 k v2 ttl2
  · rw [get_cache_eq_cacheGet, set_cache_row_eq_cacheSet]
    exact cacheGet_valid ⟨t2, ttl2, v2⟩ t2 (show t2 ≤ t2 + ttl2 by omega)

/-- C4: the `/data` endpoint cannot produce any mode's aggregate record:
`collect` is not a name bound anywhere in src/app.py, so the handler
raises `NameError` on every request instead of returning JSON. -/
theorem C4_data_endpoint_name_error :
    appFunctionNames.contains "collect" = false ∧
    (∀ mode : String,
      data_endpoint mode = Except.error "NameError: name 'collect' is not defined") :=
  ⟨rfl, fun _ => rfl⟩

/-- The non-error-tagged result CFTC produces when nothing was fetched. -/
def cftcParsedNothing : CftcResult :=
  CftcResult.ok "No petroleum sections parsed." "CFTC Disaggregated (Fut/Fut+Opt)"

/-- The record `get_prices` builds when every quote lookup fails. -/
def pricesAllNone : PricesOut :=
  ⟨Option.none, Option.none, Option.none, Option.none, "Yahoo Finance"⟩

/-- C1 (refuted as stated): with both CFTC page fetches raising, the
CFTC fetcher returns the placeholder snippet inside its success shape —
no `"error"` key — so a network failure does not yield an error-tagged
result. -/
theorem C1_counterexample :
    envAllFail.cftcText CFTC_FUT = Except.error "connection refused" ∧
    envAllFail.cftcText CFTC_FOP = Except.error "connection refused" ∧
    get_cftc envAllFail emptySt 0 =
      Except.ok (cftcParsedNothing,
        { emptySt with cftc := some ⟨0, 86400, cftcParsedNothing⟩ }) ∧
    CftcResult.is_err cftcParsedNothing = false := by
  refine ⟨rfl, rfl, ?_, rfl⟩
  rfl

/-- C1 (amended): every fetcher always returns a result — no exception
ever escapes to the caller — and the EIA, FRED and Baker Hughes fetchers
error-tag any raised failure (the CFTC and prices fetchers do not, see
the counterexample). -/
theorem C1_amended (env : Env) (st : St) (t : Nat) (e : String)
    (hek : env.EIA_API_KEY ≠ "") (hfk : env.FRED_API_KEY ≠ "")
    (hme : cacheGet st.eia t = Option.none) (hmf : cacheGet st.fred t = Option.none)
    (hmb : cacheGet st.baker t = Option.none)
    (he : env.eiaHttp = Except.error e) (hf : env.fredCpi = Except.error e)
    (hb : env.bakerText = Except.error e) :
    (∀ (env' : Env) (st' : St) (t' : Nat),
      (get_eia_weekly env' st' t').isOk ∧ (get_baker_hughes env' st' t').isOk ∧
      (get_cftc env' st' t').isOk ∧ (get_fred env' st' t').isOk ∧
      (get_prices env' st' t').isOk) ∧
    get_eia_weekly env st t = Except.ok (.err ("EIA fetch error: " ++ e), st) ∧
    get_fred env st t = Except.ok (.err ("fred: " ++ e), st) ∧
    get_baker_hughes env st t =
      Except.ok (.err ("baker: " ++ e),
        { st with baker := some (cacheSet (.err ("baker: " ++ e)) 86400 t) }) ∧
    EiaResult.is_err (.err ("EIA fetch error: " ++ e)) = true ∧
    FredResult.is_err (.err ("fred: " ++ e)) = true ∧
    BakerResult.is_err (.err ("baker: " ++ e)) = true := by
  refine ⟨?_, eia_net_err env st t e hek hme he, fred_net_err env st t e hfk hmf hf,
    baker_net_err env st t e hmb hb, rfl, rfl, rfl⟩
  intro env' st' t'
  obtain ⟨r1, sl1, h1⟩ := get_eia_shape env' st' t'
  obtain ⟨r2, sl2, h2⟩ := get_baker_shape env' st' t'
  obtain ⟨r3, sl3, h3⟩ := get_cftc_shape env' st' t'
  obtain ⟨r4, sl4, h4⟩ := get_fred_shape env' st' t'
  obtain ⟨r5, sl5, h5⟩ := get_prices_shape env' st' t'
  exact ⟨by rw [h1]; rfl, by rw [h2]; rfl, by rw [h3]; rfl, by rw [h4]; rfl,
    by rw [h5]; rfl⟩

/-- C1 witness: the amended theorem evaluated against the all-failing
environment on an empty cache. -/
theorem C1_amended_witness :
    get_eia_weekly envAllFail emptySt 0 =
      Except.ok (.err ("EIA fetch error: " ++ "boom"), emptySt) ∧
    get_fred envAllFail emptySt 0 = Except.ok (.err ("fred: " ++ "boom"), emptySt) ∧
    get_baker_hughes envAllFail emptySt 0 =
      Except.ok (.err ("baker: " ++ "boom"),
        { emptySt with baker := some (cacheSet (.err ("baker: " ++ "boom")) 86400 0) }) ∧
    EiaResult.is_err (.err ("EIA fetch error: " ++ "boom")) = true ∧
    FredResult.is_err (.err ("fred: " ++ "boom")) = true ∧
    BakerResult.is_err (.err ("baker: " ++ "boom")) = true :=
  (C1_amended envAllFail emptySt 0 "boom" (by decide) (by decide)
    rfl rfl rfl rfl rfl rfl).2

/-- The spec's latency scenario: every fetcher takes 100 ms. -/
def d100 : FetchTimes := ⟨100, 100, 100, 100, 100⟩

/-- The cache state a collection leaves behind when it starts from an
empty cache under `envAllFail` with 100 ms fetchers at `t0 = 0`. -/
def c3FailSt : St :=
  ⟨Option.none,
   some (cacheSet (BakerResult.err "baker: boom") 86400 100),
   some (cacheSet cftcParsedNothing 86400 200),
   Option.none,
   some (cacheSet pricesAllNone 600 400)⟩

/-- C3 (refuted as stated): with every network call failing, the batch
still populates all five entries — but the "cftc" entry it contributes
is the non-error-tagged placeholder record, and the "prices" entry the
all-`None` record with no error key, so a failing fetcher does *not*
always contribute an error entry. -/
theorem C3_counterexample :
    envAllFail.cftcText CFTC_FUT = Except.error "connection refused" ∧
    envAllFail.cftcText CFTC_FOP = Except.error "connection refused" ∧
    envAllFail.hist "CL=F" = Except.error "boom" ∧
    envAllFail.hist "^DXY" = Except.error "boom" ∧
    envAllFail.hist "DX-Y.NYB" = Except.error "boom" ∧
    envAllFail.hist "UUP" = Except.error "boom" ∧
    run_once_fetch envAllFail d100 emptySt 0 =
      Except.ok ((EiaResult.err "EIA fetch error: boom", BakerResult.err "baker: boom",
        cftcParsedNothing, FredResult.err "fred: boom", pricesAllNone), c3FailSt) ∧
    payloadGet (mkRunPayload (EiaResult.err "EIA fetch error: boom")
        (BakerResult.err "baker: boom") cftcParsedNothing (FredResult.err "fred: boom")
        pricesAllNone) "cftc" = some (PVal.cftc cftcParsedNothing) ∧
    CftcResult.is_err cftcParsedNothing = false ∧
    payloadGet (mkRunPayload (EiaResult.err "EIA fetch error: boom")
        (BakerResult.err "baker: boom") cftcParsedNothing (FredResult.err "fred: boom")
        pricesAllNone) "prices" = some (PVal.prices pricesAllNone) ∧
    pricesAllNone.WTI = Option.none ∧ pricesAllNone.DXY = Option.none := by
  refine ⟨rfl, rfl, rfl, rfl, rfl, rfl, ?_, rfl, rfl, rfl, rfl, rfl⟩
  rfl

/-- The aggregate restricted to the three sources whose failures are
error-tagged (EIA, Baker Hughes, FRED). -/
def fetchTagTriple
    (r : Except String ((EiaResult × BakerResult × CftcResult × FredResult × PricesOut) × St)) :
    Except String (EiaResult × BakerResult × FredResult) :=
  r.map (fun x => (x.1.1, x.1.2.1, x.1.2.2.2.1))

/-- C3 (amended): a full collection always succeeds and its aggregate
payload carries exactly one entry per known source, keyed by the
source's name, for every environment — a failing fetcher contributes
whatever result it returned as that entry and never prevents the others
or fails the batch (`run_once` returns the formatted report, not its
`except` arm's message); when the EIA, Baker Hughes and FRED fetches
raise under a cache miss, their entries are error-tagged (whereas CFTC
and prices contribute non-tagged records, see the counterexample). -/
theorem C3_amended (env : Env) (d : FetchTimes)
    (st : St) (t0 : Nat) (msg : String)
    (hek : env.EIA_API_KEY ≠ "") (hfk : env.FRED_API_KEY ≠ "")
    (hce : cacheGet st.eia t0 = Option.none)
    (hcb : cacheGet st.baker (tBaker d t0) = Option.none)
    (hcf : cacheGet st.fred (tFred d t0) = Option.none)
    (he : env.eiaHttp = Except.error msg)
    (hbt : env.bakerText = Except.error msg)
    (hfc : env.fredCpi = Except.error msg) :
    (∀ (env2 : Env) (d2 : FetchTimes) (mode2 : String) (st2 : St) (t2 : Nat)
      (chat2 : Option String),
      ∃ e b c f p stf,
        run_once_fetch env2 d2 st2 t2 = Except.ok ((e, b, c, f, p), stf) ∧
        (payloadEntries (mkRunPayload e b c f p)).map Prod.fst =
          ["eia", "baker", "cftc", "fred", "prices", "cftc_interpretation"] ∧
        payloadGet (mkRunPayload e b c f p) "eia" = some (PVal.eia e) ∧
        payloadGet (mkRunPayload e b c f p) "baker" = some (PVal.baker b) ∧
        payloadGet (mkRunPayload e b c f p) "cftc" = some (PVal.cftc c) ∧
        payloadGet (mkRunPayload e b c f p) "fred" = some (PVal.fred f) ∧
        payloadGet (mkRunPayload e b c f p) "prices" = some (PVal.prices p) ∧
        run_once env2 d2 mode2 st2 t2 chat2 =
          (fmt_summary (mkRunPayload e b c f p)
            (some (gpt_analyze env2 (toString (repr (mkRunPayload e b c f p))) p))
            (run_once_end d2 t2), stf)) ∧
    fetchTagTriple (run_once_fetch env d st t0) =
      Except.ok (EiaResult.err ("EIA fetch error: " ++ msg),
        BakerResult.err ("baker: " ++ msg), FredResult.err ("fred: " ++ msg)) := by
  constructor
  · intro env2 d2 mode2 st2 t2 chat2
    obtain ⟨e, b, c, f, p, stf, h⟩ := run_once_fetch_ok env2 d2 st2 t2
    exact ⟨e, b, c, f, p, stf, h, rfl, rfl, rfl, rfl, rfl, rfl,
      run_once_of_fetch env2 d2 mode2 st2 t2 chat2 e b c f p stf h⟩
  · have h1 : get_eia_weekly env st t0 =
        Except.ok (.err ("EIA fetch error: " ++ msg), st) :=
      eia_net_err env st t0 msg hek hce he
    have h2 := baker_net_err env st (tBaker d t0) msg hcb hbt
    obtain ⟨c, sl3, h3⟩ := get_cftc_shape env
      { st with baker := some (cacheSet (.err ("baker: " ++ msg)) 86400 (tBaker d t0)) }
      (tCftc d t0)
    have h4 := fred_net_err env
      ⟨st.eia, some (cacheSet (.err ("baker: " ++ msg)) 86400 (tBaker d t0)), sl3,
        st.fred, st.prices⟩
      (tFred d t0) msg hfk hcf hfc
    obtain ⟨p, sl5, h5⟩ := get_prices_shape env
      ⟨st.eia, some (cacheSet (.err ("baker: " ++ msg)) 86400 (tBaker d t0)), sl3,
        st.fred, st.prices⟩
      (tPrices d t0)
    have hfetch : run_once_fetch env d st t0 =
        Except.ok ((.err ("EIA fetch error: " ++ msg), .err ("baker: " ++ msg), c,
          .err ("fred: " ++ msg), p),
          ⟨st.eia, some (cacheSet (.err ("baker: " ++ msg)) 86400 (tBaker d t0)), sl3,
            st.fred, sl5⟩) := by
      unfold run_once_fetch
      rw [h1]
      simp only [exBind_ok]
      rw [h2]
      simp only [exBind_ok]
      rw [h3]
      simp only [exBind_ok]
      rw [h4]
      simp only [exBind_ok]
      rw [h5]
      simp only [exBind_ok, exPure]
    rw [hfetch]
    rfl

/-- C3 witness: under the all-failing environment on an empty cache the
aggregate's EIA, Baker Hughes and FRED entries are the error dicts. -/
theorem C3_amended_witness :
    fetchTagTriple (run_once_fetch envAllFail d100 emptySt 0) =
      Except.ok (EiaResult.err ("EIA fetch error: " ++ "boom"),
        BakerResult.err ("baker: " ++ "boom"), FredResult.err ("fred: " ++ "boom")) :=
  (C3_amended envAllFail d100 emptySt 0 "boom"
    (by decide) (by decide) rfl rfl rfl rfl rfl rfl).2

/-- C8 (refuted as stated): with five 100 ms fetchers the collection
takes the 500 ms sum, which exceeds the slowest fetcher (100 ms) even
granting a further 100 ms of scheduling overhead. -/
theorem C8_counterexample :
    run_once_elapsed d100 0 = 500 ∧
    run_once_elapsed d100 0 = d100.eia + d100.baker + d100.cftc + d100.fred + d100.prices ∧
    ¬(run_once_elapsed d100 0 ≤ 100 + 100) :=
  ⟨rfl, rfl, by decide⟩

/-- C8 (amended): `run_once` invokes the five fetchers sequentially, not
through a worker pool: the rows a collection from an empty cache leaves
behind are stamped with the *accumulated* predecessors' durations, and
the elapsed wall-clock time is the sum of all five durations. -/
theorem C8_amended (env : Env) (d : FetchTimes) (mode : String) (t0 : Nat)
    (chat : Option String) :
    ∃ (rep : String) (sl1 : Option (CacheEntry EiaResult))
      (sl4 : Option (CacheEntry FredResult)),
      run_once env d mode emptySt t0 chat =
        (rep,
          { eia := sl1,
            baker := some (cacheSet (bakerOut env) 86400 (tBaker d t0)),
            cftc := some (cacheSet (cftcOut env) 86400 (tCftc d t0)),
            fred := sl4,
            prices := some (cacheSet (pricesFresh env) 600 (tPrices d t0)) }) ∧
      tBaker d t0 = t0 + d.eia ∧
      tCftc d t0 = t0 + d.eia + d.baker ∧
      tPrices d t0 = t0 + d.eia + d.baker + d.cftc + d.fred ∧
      run_once_elapsed d t0 = d.eia + d.baker + d.cftc + d.fred + d.prices := by
  obtain ⟨e, sl1, f, sl4, h⟩ := run_once_fetch_emptySt env d t0
  refine ⟨_, sl1, sl4,
    run_once_of_fetch env d mode emptySt t0 chat e (bakerOut env) (cftcOut env) f
      (pricesFresh env) _ h, rfl, rfl, rfl, ?_⟩
  unfold run_once_elapsed run_once_end
  omega

/-- C10: on a cache miss the Baker Hughes and CFTC fetchers store
whatever they produced — error-tagged results included — for their full
24-hour TTL, and the prices fetcher stores the all-`None` record for its
10-minute TTL when every quote lookup fails; any call within the TTL
then replays the stored result under *every* environment, i.e. without
the outcome depending on any new fetch. -/
theorem C10_failures_cached (env env2 : Env) (st : St) (t tb tc tp : Nat)
    (hmb : cacheGet st.baker t = Option.none)
    (hmc : cacheGet st.cftc t = Option.none)
    (hmp : cacheGet st.prices t = Option.none)
    (hvb : tb ≤ t + 86400) (hvc : tc ≤ t + 86400) (hvp : tp ≤ t + 600)
    (hw : _last_close_series env "CL=F" = (Option.none, Option.none))
    (hd1 : _last_close_series env "^DXY" = (Option.none, Option.none))
    (hd2 : _last_close_series env "DX-Y.NYB" = (Option.none, Option.none))
    (hd3 : _last_close_series env "UUP" = (Option.none, Option.none)) :
    (get_baker_hughes env st t =
        Except.ok (bakerOut env,
          { st with baker := some (cacheSet (bakerOut env) 86400 t) }) ∧
      get_baker_hughes env2 { st with baker := some (cacheSet (bakerOut env) 86400 t) } tb =
        Except.ok (bakerOut env,
          { st with baker := some (cacheSet (bakerOut env) 86400 t) })) ∧
    (get_cftc env st t =
        Except.ok (cftcOut env,
          { st with cftc := some (cacheSet (cftcOut env) 86400 t) }) ∧
      get_cftc env2 { st with cftc := some (cacheSet (cftcOut env) 86400 t) } tc =
        Except.ok (cftcOut env,
          { st with cftc := some (cacheSet (cftcOut env) 86400 t) })) ∧
    (pricesFresh env =
        ⟨Option.none, Option.none, Option.none, Option.none, "Yahoo Finance"⟩ ∧
      get_prices env st t =
        Except.ok (pricesFresh env,
          { st with prices := some (cacheSet (pricesFresh env) 600 t) }) ∧
      get_prices env2 { st with prices := some (cacheSet (pricesFresh env) 600 t) } tp =
        Except.ok (pricesFresh env,
          { st with prices := some (cacheSet (pricesFresh env) 600 t) })) := by
  refine ⟨⟨get_baker_miss env st t hmb, ?_⟩, ⟨get_cftc_miss env st t hmc, ?_⟩,
    ?_, get_prices_miss env st t hmp, ?_⟩
  · exact get_baker_hit env2 _ tb (cacheSet (bakerOut env) 86400 t) rfl
      (show tb ≤ t + 86400 from hvb)
  · exact get_cftc_hit env2 _ tc (cacheSet (cftcOut env) 86400 t) rfl
      (show tc ≤ t + 86400 from hvc)
  · unfold pricesFresh
    rw [hw, hd1]
    simp only [Option.isNone_none, if_true]
    rw [hd2]
    simp only [Option.isNone_none, if_true]
    rw [hd3]
  · exact get_prices_hit env2 _ tp (cacheSet (pricesFresh env) 600 t) rfl
      (show tp ≤ t + 600 from hvp)

/-- C10 witness: the all-failing environment on an empty cache at `t = 0`,
replayed at the TTL edges (86400 s and 600 s). -/
theorem C10_failures_cached_witness :
    (get_baker_hughes envAllFail emptySt 0 =
        Except.ok (bakerOut envAllFail,
          { emptySt with baker := some (cacheSet (bakerOut envAllFail) 86400 0) }) ∧
      get_baker_hughes envAllFail
          { emptySt with baker := some (cacheSet (bakerOut envAllFail) 86400 0) } 86400 =
        Except.ok (bakerOut envAllFail,
          { emptySt with baker := some (cacheSet (bakerOut envAllFail) 86400 0) })) ∧
    (get_cftc envAllFail emptySt 0 =
        Except.ok (cftcOut envAllFail,
          { emptySt with cftc := some (cacheSet (cftcOut envAllFail) 86400 0) }) ∧
      get_cftc envAllFail
          { emptySt with cftc := some (cacheSet (cftcOut envAllFail) 86400 0) } 86400 =
        Except.ok (cftcOut envAllFail,
          { emptySt with cftc := some (cacheSet (cftcOut envAllFail) 86400 0) })) ∧
    (pricesFresh envAllFail =
        ⟨Option.none, Option.none, Option.none, Option.none, "Yahoo Finance"⟩ ∧
      get_prices envAllFail emptySt 0 =
        Except.ok (pricesFresh envAllFail,
          { emptySt with prices := some (cacheSet (pricesFresh envAllFail) 600 0) }) ∧
      get_prices envAllFail
          { emptySt with prices := some (cacheSet (pricesFresh envAllFail) 600 0) } 600 =
        Except.ok (pricesFresh envAllFail,
          { emptySt with prices := some (cacheSet (pricesFresh envAllFail) 600 0) })) :=
  C10_failures_cached envAllFail envAllFail emptySt 0 86400 86400 600
    rfl rfl rfl (by omega) (by omega) (by omega) rfl rfl rfl rfl

/-- A previously stored prices record, and a cache state in which it has
been stored at `t = 0` with the 10-minute TTL. -/
def c5Cached : PricesOut := ⟨some 62, some (3/2), some 98, some (-(1/5)), "Yahoo Finance"⟩

def c5St : St := { emptySt with prices := some ⟨0, 600, c5Cached⟩ }

/-- C5: at `t = 1000` the stored prices row is expired, so `get_cache`
already reads it as absent; when both quote lookups then fail, the
"return last cache" fallback (src lines 390-391, guarded by the same
`cached` local that is `None` here) cannot fire, and `get_prices`
returns — and re-caches — the all-`None` record instead of the stale
data the source's own comment promises. -/
theorem C5_expired_cache_not_used :
    c5St.prices = some ⟨0, 600, c5Cached⟩ ∧
    (0 + 600 < 1000) ∧
    cacheGet c5St.prices 1000 = Option.none ∧
    envAllFail.hist "CL=F" = Except.error "boom" ∧
    envAllFail.hist "^DXY" = Except.error "boom" ∧
    envAllFail.hist "DX-Y.NYB" = Except.error "boom" ∧
    envAllFail.hist "UUP" = Except.error "boom" ∧
    get_prices envAllFail c5St 1000 =
      Except.ok (pricesAllNone,
        { c5St with prices := some (cacheSet pricesAllNone 600 1000) }) :=
  ⟨rfl, by omega, rfl, rfl, rfl, rfl, rfl, rfl⟩

/-! ## Sample payloads for the formatter claims -/

def eiaRawSample : EiaRaw :=
  ⟨some (some 416000, "MBBL", "Crude Oil Ending Stocks Excluding SPR"),
   some (some 6200, "MBBL/D", "Crude Oil Imports"),
   some (some 13500, "MBBL/D", "Crude Oil Production")⟩

def eiaOkSample : EiaResult :=
  .ok "2025-10-03" eiaRawSample (eiaReport "2025-10-03" eiaRawSample)

def bakerOkSample : BakerResult :=
  .ok "U.S. 17 Oct 2025 548 +1" "Baker Hughes (Rig Count)" (some "17 Oct 2025")
    (some 548) (some 1) (some 174) (some (-2)) (some 965) (some 3)
    (bakerSentiment (some 1))

/-- A fully populated aggregate payload. -/
def pOk : Payload :=
  ⟨some eiaOkSample, some bakerOkSample, some cftcParsedNothing,
   some (FredResult.err "fred: boom"), some pricesAllNone,
   some (analyze_cftc_snippet "WTI-PHYSICAL 45.2 28.1 12.9")⟩

/-- The same payload with the EIA entry error-tagged / absent. -/
def pEiaErr : Payload := { pOk with eia := some (.err "EIA fetch error: boom") }

def pEiaAbsent : Payload := { pOk with eia := Option.none }

/-- The header line of the EIA section of the summary message. -/
def eiaHeaderLine : String := "\n📦 <b>EIA Weekly Crude Snapshot</b>"

/-- The explicit Baker Hughes unavailability placeholder. -/
def bakerUnavailableLine : String := "\n🛠 <b>Baker Hughes:</b> данные не получены."

/-- C6 (refuted as stated): an error-tagged EIA entry does not render as
an "unavailable" placeholder — the whole EIA section vanishes, and the
message is byte-identical to the one produced with no EIA entry at all,
so the section structure is *not* stable across failures. -/
theorem C6_counterexample :
    EiaResult.is_err (EiaResult.err "EIA fetch error: boom") = true ∧
    eiaHeaderLine ∈ fmt_summary_lines pOk Option.none 0 ∧
    eiaHeaderLine ∉ fmt_summary_lines pEiaErr Option.none 0 ∧
    fmt_summary pEiaErr Option.none 0 = fmt_summary pEiaAbsent Option.none 0 := by
  refine ⟨rfl, by decide, by decide, rfl⟩

/-- A missing or error-tagged Baker Hughes entry renders the explicit
placeholder section. -/
theorem fmtBakerSection_unavailable (b : Option BakerResult)
    (h : bakerSnippet? b = Option.none) :
    fmtBakerSection b = [bakerUnavailableLine] := by
  unfold fmtBakerSection
  rw [if_neg (by decide), h]
  rfl

/-- C6 (amended): the Baker Hughes section degrades to an explicit
placeholder when its entry is missing or error-tagged, but an
error-tagged EIA entry renders the same message as an absent one — the
EIA section is silently omitted. -/
theorem C6_amended (p : Payload) (a : Option String) (t : Nat) (m : String)
    (hb : p.baker = Option.none ∨ ∃ msg, p.baker = some (BakerResult.err msg)) :
    bakerUnavailableLine ∈ fmt_summary_lines p a t ∧
    fmt_summary { p with eia := some (.err m) } a t =
      fmt_summary { p with eia := Option.none } a t := by
  constructor
  · have hsn : bakerSnippet? p.baker = Option.none := by
      rcases hb with h | ⟨msg, h⟩ <;> rw [h] <;> rfl
    have := fmtBakerSection_unavailable p.baker hsn
    unfold fmt_summary_lines
    rw [this]
    simp [List.mem_append]
  · rfl

/-- C6 witness: the amended theorem at a payload with no Baker entry. -/
theorem C6_amended_witness :
    bakerUnavailableLine ∈ fmt_summary_lines { pOk with baker := Option.none } Option.none 0 ∧
    fmt_summary { { pOk with baker := Option.none } with eia := some (.err "x") } Option.none 0 =
      fmt_summary { { pOk with baker := Option.none } with eia := Option.none } Option.none 0 :=
  C6_amended { pOk with baker := Option.none } Option.none 0 "x" (Or.inl rfl)

/-- The payload with every entry absent (shortest rendered message). -/
def pEmptyPayload : Payload :=
  ⟨Option.none, Option.none, Option.none, Option.none, Option.none, Option.none⟩

/-- C7 (refuted as stated): `fmt_summary` reads the process clock
(`utc_now()`, src line 663), so two calls with the identical payload and
analysis text — one second apart — produce different bytes. -/
theorem C7_counterexample :
    fmt_summary pEmptyPayload Option.none 0 ≠ fmt_summary pEmptyPayload Option.none 1 := by
  decide

/-- C7 (amended): the formatter is a pure function of the payload, the
analysis text and the clock reading it embeds — calls on which `utc_now`
renders identically produce byte-identical output, and nothing else
about the process state influences the result. -/
theorem C7_amended (p : Payload) (a : Option String) (t1 t2 : Nat)
    (h : utc_now t1 = utc_now t2) :
    fmt_summary p a t1 = fmt_summary p a t2 := by
  unfold fmt_summary fmt_summary_lines
  rw [h]

/-- C7 witness: the amended theorem applied at an equal clock reading. -/
theorem C7_amended_witness :
    fmt_summary pEmptyPayload Option.none 5 = fmt_summary pEmptyPayload Option.none 5 :=
  C7_amended pEmptyPayload Option.none 5 5 rfl

end Oil
